import Mathlib

/-
Verification of the dungeoncoder client (src/python-api/dungeoncoder.py)
against its specification. The Python module is shallowly embedded: decoded
JSON payloads become an inductive type, the external HTTP stack and the file
system become explicit oracle arguments, and every Python exception that can
cross a function boundary travels in an Except channel.
-/

namespace DungeonCoder

/-- JSON values as produced by the Python json decoder (dict, list, str,
int, bool, None). Numbers are modelled as integers; the entry list of `obj`
models a Python dict, in which the json decoder keeps the last occurrence of
a duplicated key. -/
inductive Json : Type
  | null
  | bool (b : Bool)
  | num (n : Int)
  | str (s : String)
  | arr (elems : List Json)
  | obj (entries : List (String × Json))

mutual
/-- Structural equality of decoded JSON values, modelling the Python `==`
used by the parser (only ever against a string literal, where Python
equality is structural). -/
def beqJson : Json → Json → Bool
  | .null, .null => true
  | .bool a, .bool b => a == b
  | .num a, .num b => a == b
  | .str a, .str b => a == b
  | .arr a, .arr b => beqJsonList a b
  | .obj a, .obj b => beqJsonEntries a b
  | _, _ => false

def beqJsonList : List Json → List Json → Bool
  | [], [] => true
  | a :: as, b :: bs => beqJson a b && beqJsonList as bs
  | _, _ => false

def beqJsonEntries : List (String × Json) → List (String × Json) → Bool
  | [], [] => true
  | (ka, va) :: as, (kb, vb) :: bs => ka == kb && beqJson va vb && beqJsonEntries as bs
  | _, _ => false
end

mutual
/-- Python repr of a decoded JSON value (escaping of special characters
inside nested strings is not modelled; no claim exercises it). -/
def pyRepr : Json → String
  | .null => "None"
  | .bool true => "True"
  | .bool false => "False"
  | .num n => toString n
  | .str s => String.singleton (Char.ofNat 39) ++ s ++ String.singleton (Char.ofNat 39)
  | .arr elems => "[" ++ String.intercalate ", " (pyReprList elems) ++ "]"
  | .obj entries => "\x7b" ++ String.intercalate ", " (pyReprEntries entries) ++ "\x7d"

def pyReprList : List Json → List String
  | [] => []
  | j :: rest => pyRepr j :: pyReprList rest

def pyReprEntries : List (String × Json) → List String
  | [] => []
  | (k, v) :: rest =>
      (String.singleton (Char.ofNat 39) ++ k ++ String.singleton (Char.ofNat 39)
        ++ ": " ++ pyRepr v) :: pyReprEntries rest
end

/-- Python str of a decoded JSON value, as interpolated by the f-string in
the failure branch of the parser: a str renders verbatim, every other type
renders as its repr. -/
def pyStr : Json → String
  | .str s => s
  | j => pyRepr j

/-- Exceptions of the Python runtime that the client code can raise past a
function boundary. -/
inductive PyExn : Type
  | runtimeError (msg : String)
  | typeError (msg : String)
  | keyError (key : String)
  | attributeError (msg : String)
  | jsonDecodeError (msg : String)

/-- Lookup of key `k` in a decoded dict; the json decoder keeps the last
occurrence of a duplicated key, so the last binding wins. -/
def lookupLast : List (String × Json) → String → Option Json
  | [], _ => none
  | (k0, v0) :: rest, k =>
      match lookupLast rest k with
      | some v => some v
      | none => if k0 = k then some v0 else none

/-- Membership test of key `k` in a decoded dict. -/
def hasKey (entries : List (String × Json)) (k : String) : Bool :=
  entries.any fun kv => kv.1 == k

/-- Substring test of the Python `in` operator on strings, for a nonempty
pattern (the parser only ever tests the literal keys). -/
def strContainsSub (s pat : String) : Bool :=
  decide (1 < (s.splitOn pat).length)

/-- Python expression `k in data` on a decoded JSON value: key membership
for a dict, element membership for a list, substring test for a str, and a
TypeError for every other type. -/
def pyContains (k : String) (data : Json) : Except PyExn Bool :=
  match data with
  | .obj entries => .ok (hasKey entries k)
  | .arr elems => .ok (elems.any fun e => beqJson e (.str k))
  | .str s => .ok (strContainsSub s k)
  | _ => .error (.typeError "argument of type is not iterable")

/-- Python expression `data[k]` on a decoded JSON value: dict lookup raising
KeyError when absent; a TypeError for every other type, since `k` is a
string. -/
def pyIndex (data : Json) (k : String) : Except PyExn Json :=
  match data with
  | .obj entries =>
      match lookupLast entries k with
      | some v => .ok v
      | none => .error (.keyError k)
  | .arr _ => .error (.typeError "list indices must be integers or slices, not str")
  | .str _ => .error (.typeError "string indices must be integers")
  | _ => .error (.typeError "object is not subscriptable")

/-- Python expression `data.get(k, dflt)`: defined for a dict; any other
receiver lacks the attribute. -/
def pyGet (data : Json) (k : String) (dflt : Json) : Except PyExn Json :=
  match data with
  | .obj entries => .ok ((lookupLast entries k).getD dflt)
  | _ => .error (.attributeError "object has no attribute get")

/-- The parts of a requests.Response that the client reads: `ok` is the
truthiness of the response object (status code below 400, which is also
exactly what raise_for_status checks), `errText` is the rendered message of
the HTTPError that raise_for_status raises when `ok` is false, `content` is
the body text (the code reads content and text off the same body), and
`decoded` is the outcome of response.json(), where `none` models a
JSONDecodeError. -/
structure Response where
  ok : Bool
  errText : String
  content : String
  decoded : Option Json

/-- Shallow embedding of parse_api_response (dungeoncoder.py lines 36-59).
The argument is `none` when the transport returned no response; an exception
raised by the Python code travels in the Except channel. The first Python
line, `if not response`, is false for None and for a response whose `ok`
flag is false. -/
def parse_api_response (response : Option Response) : Except PyExn Json :=
  match response with
  | none => .ok (.bool false)
  | some resp =>
    if resp.ok = false then .ok (.bool false)
    else if resp.content = "" then .ok (.bool false)
    else
      match resp.decoded with
      | none =>
          .error (.runtimeError
            ("Failed to decode JSON. Response: " ++ resp.content.take 50 ++ "..."))
      | some data =>
          match pyContains "status" data with
          | .error e => .error e
          | .ok hasStatus =>
            match (if hasStatus then pyContains "result" data else .ok false) with
            | .error e => .error e
            | .ok bothKeys =>
              if bothKeys then
                match pyIndex data "status" with
                | .error e => .error e
                | .ok statusVal =>
                  if beqJson statusVal (.str "success") then
                    pyIndex data "result"
                  else
                    match pyGet data "message"
                            (.str "API response payload indicated failure.") with
                    | .error e => .error e
                    | .ok errorMsg =>
                        .error (.runtimeError
                          ("API operation failed: " ++ pyStr errorMsg))
              else .ok (.bool false)

/-- Exceptions that the requests call or raise_for_status can raise, one
constructor per handler of send_request; each carries the rendered message
text of the exception object. -/
inductive ReqExn : Type
  | httpError (msg : String)
  | connectionError (msg : String)
  | timeoutError (msg : String)
  | requestException (msg : String)
  | jsonDecodeError (msg : String)
  | otherError (msg : String)

/-- Diagnostic line printed by the handler catching each exception kind
(dungeoncoder.py lines 22-33). The JSONDecodeError handler of the source
interpolates response.text, which is unbound when the request call itself
raised; that handler is unreachable in this program and its body snippet is
not modelled. -/
def exnDiagnostic (url : String) : ReqExn → String
  | .httpError m => "HTTP error occurred: " ++ m ++ " for URL: " ++ url
  | .connectionError _ => "Connection error occurred. Did you start the Dungeon Coder Plugin?"
  | .timeoutError m => "Timeout error occurred: " ++ m ++ ". Server took too long to respond."
  | .requestException m => "An unexpected request error occurred: " ++ m
  | .jsonDecodeError _ => "Failed to decode JSON response from " ++ url ++ ". Response was: ..."
  | .otherError m => "An unknown error occurred: " ++ m

/-- Result of one send_request call: the value returned (None on every
failure), the diagnostic lines printed, and whether a network request was
issued. The function type being total embeds the guarantee that every
exception of the try block is caught by a handler. -/
structure SendResult where
  response : Option Response
  printed : List String
  networkCalled : Bool

/-- Behaviour of the external HTTP stack for one call: given the url, the
dispatched method, the body, the headers and the timeout, the requests call
either raises or returns a response (whose `ok` flag then drives
raise_for_status). -/
def Network : Type :=
  String → String → Option Json → Option (List (String × String)) → Nat →
    Except ReqExn Response

/-- Outcome of the try block of send_request once the requests call has
returned or raised, including response.raise_for_status() and the handler
chain. -/
def handleOutcome (url : String) (outcome : Except ReqExn Response) : SendResult :=
  match outcome with
  | .error e => { response := none, printed := [exnDiagnostic url e], networkCalled := true }
  | .ok resp =>
      if resp.ok then { response := some resp, printed := [], networkCalled := true }
      else
        { response := none,
          printed := [exnDiagnostic url (.httpError resp.errText)],
          networkCalled := true }

/-- Shallow embedding of send_request (dungeoncoder.py lines 5-34): GET and
POST dispatch to the network oracle, any other method prints a diagnostic
and returns None without touching the network; every exception a handler
catches becomes one printed diagnostic and the return value None. -/
def send_request (url : String) (method : String) (data : Option Json)
    (headers : Option (List (String × String))) (timeout : Nat) (net : Network) :
    SendResult :=
  if method = "GET" then handleOutcome url (net url "GET" data headers timeout)
  else if method = "POST" then handleOutcome url (net url "POST" data headers timeout)
  else
    { response := none,
      printed := ["Error: Method " ++ method ++ " not implemented!"],
      networkCalled := false }

/-- Hero client: holds only the base URL (dungeoncoder.py lines 61-66). -/
structure Hero where
  BASE_URL : String

/-- Shallow embedding of Hero.move (dungeoncoder.py lines 73-77): POST to
/hero/move with the send_request defaults (no body, no headers, timeout 1),
then parse the envelope. -/
def Hero.move (h : Hero) (net : Network) : Except PyExn Json :=
  parse_api_response
    (send_request (h.BASE_URL ++ "/hero/move") "POST" none none 1 net).response

/-- Level client: holds only the base URL (dungeoncoder.py lines 144-149). -/
structure Level where
  BASE_URL : String

/-- Outcome of reading the level file: the file may be missing
(os.path.exists false), hold text that json.load rejects (raising a
JSONDecodeError with message `msg`), or decode to a JSON value. -/
inductive FileOutcome : Type
  | missing
  | invalidJson (msg : String)
  | validJson (levelData : Json)

/-- Behaviour of the local file system, one outcome per file name. -/
def FileSystem : Type := String → FileOutcome

/-- Result of Level.load: the value returned or the exception raised, the
diagnostic lines printed, and whether an HTTP request was issued. -/
structure LoadResult where
  result : Except PyExn Json
  printed : List String
  httpCalled : Bool

/-- Shallow embedding of Game.Level.load (dungeoncoder.py lines 151-167): a
missing file yields a local error dict without contacting the server; a
json.load failure raises and is not caught here; otherwise the decoded
level data is POSTed to /level/load with a Content-Type header and the
envelope is parsed. -/
def Level.load (lvl : Level) (filename : String) (fs : FileSystem) (net : Network) :
    LoadResult :=
  match fs filename with
  | .missing =>
      { result := .ok (.obj [("status", .str "error"),
                             ("message", .str ("File not found: " ++ filename))]),
        printed := [], httpCalled := false }
  | .invalidJson m =>
      { result := .error (.jsonDecodeError m), printed := [], httpCalled := false }
  | .validJson levelData =>
      let sr := send_request (lvl.BASE_URL ++ "/level/load") "POST" (some levelData)
                  (some [("Content-Type", "application/json")]) 1 net
      { result := parse_api_response sr.response, printed := sr.printed,
        httpCalled := sr.networkCalled }

/-- Game facade: owns one Level client and one Hero client
(dungeoncoder.py lines 121-142). -/
structure Game where
  level : Level
  hero : Hero

/-- Base URL class attribute of the Game facade. -/
def Game.BASE_URL : String := "http://localhost:3000"

/-- Result of running the Game constructor: the constructed facade and the
diagnostic lines printed during construction. -/
structure InitResult where
  game : Game
  printed : List String

/-- Shallow embedding of the Game constructor (dungeoncoder.py lines
132-139). The Except return type records that the constructor body could in
principle raise; the bare `except` clause around the level load catches
every exception the load raises, prints one diagnostic, and construction
continues, building the Hero client unconditionally. A load outcome that is
a returned value (even a local error dict) is discarded silently. -/
def Game.init (level_file : String) (fs : FileSystem) (net : Network) :
    Except PyExn InitResult :=
  let lvl : Level := { BASE_URL := Game.BASE_URL }
  let lr := lvl.load level_file fs net
  let extra : List String :=
    match lr.result with
    | .error _ =>
        ["Error: Level " ++ level_file
          ++ " could not be loaded. Please make sure the file exists and is valid."]
    | .ok _ => []
  .ok { game := { level := lvl, hero := { BASE_URL := Game.BASE_URL } },
        printed := lr.printed ++ extra }

/-- Shallow embedding of Game.get_hero (dungeoncoder.py lines 141-142). -/
def Game.get_hero (g : Game) : Hero := g.hero

/-- Network oracle that always returns the same response. -/
def netConst (r : Response) : Network := fun _ _ _ _ _ => .ok r

/-- Network oracle on which every request raises a ConnectionError. -/
def netRefused : Network := fun _ _ _ _ _ => .error (.connectionError "refused")

/-- File system on which every file is missing. -/
def fsMissing : FileSystem := fun _ => .missing

/-- File system on which every file exists but json.load rejects it. -/
def fsInvalidJson : FileSystem :=
  fun _ => .invalidJson "Expecting value: line 1 column 1 (char 0)"

/-- Response of the C1 scenario: status "error", message "wall ahead", and
no result key. -/
def heroMoveWallAheadResp : Response :=
  { ok := true, errText := "",
    content := "\x7b\"status\":\"error\",\"message\":\"wall ahead\"\x7d",
    decoded := some (.obj [("status", .str "error"), ("message", .str "wall ahead")]) }

/-- Response like the C1 scenario but carrying a result key, so that the
failure branch of the parser is reached. -/
def wallAheadWithResultResp : Response :=
  { ok := true, errText := "",
    content := "\x7b\"status\":\"error\",\"message\":\"wall ahead\",\"result\":null\x7d",
    decoded := some (.obj [("status", .str "error"), ("message", .str "wall ahead"),
                           ("result", .null)]) }

/-- Response whose envelope reports success with result 42. -/
def successResp : Response :=
  { ok := true, errText := "",
    content := "\x7b\"status\":\"success\",\"result\":42\x7d",
    decoded := some (.obj [("status", .str "success"), ("result", .num 42)]) }

/-- Response whose body has a status key but no result key. -/
def statusOnlyResp : Response :=
  { ok := true, errText := "",
    content := "\x7b\"status\":\"success\"\x7d",
    decoded := some (.obj [("status", .str "success")]) }

/-- Response with an empty body. -/
def emptyBodyResp : Response :=
  { ok := true, errText := "", content := "", decoded := none }

/-- Response whose body is the empty JSON object. -/
def emptyObjResp : Response :=
  { ok := true, errText := "", content := "\x7b\x7d", decoded := some (.obj []) }

/-- Response whose body is not valid JSON. -/
def htmlResp : Response :=
  { ok := true, errText := "", content := "<html>not json</html>", decoded := none }

/-- Helper: a key found by lookupLast is a member of the dict. -/
theorem lookupLast_hasKey (entries : List (String × Json)) (k : String) (v : Json)
    (h : lookupLast entries k = some v) : hasKey entries k = true := by
  induction entries with
  | nil => simp [lookupLast] at h
  | cons kv rest ih =>
    obtain ⟨k0, v0⟩ := kv
    rw [lookupLast] at h
    simp only [hasKey, List.any_cons, Bool.or_eq_true]
    cases hr : lookupLast rest k with
    | some w =>
        rw [hr] at h
        injection h with hwv
        subst hwv
        have hk := ih hr
        simp only [hasKey] at hk
        exact Or.inr hk
    | none =>
        rw [hr] at h
        by_cases hk0 : k0 = k
        · exact Or.inl (by simp [hk0])
        · simp [hk0] at h

/-- Helper: the outcome of the try block of send_request is either a
successful response or an absent response with one diagnostic printed. -/
theorem handleOutcome_spec (url : String) (outcome : Except ReqExn Response) :
    ((handleOutcome url outcome).response = none
      ∧ (handleOutcome url outcome).printed ≠ [])
    ∨ (∃ resp, (handleOutcome url outcome).response = some resp
        ∧ resp.ok = true ∧ (handleOutcome url outcome).printed = []) := by
  cases outcome with
  | error e => exact Or.inl ⟨rfl, by simp [handleOutcome]⟩
  | ok resp =>
      cases hro : resp.ok with
      | false => exact Or.inl ⟨by simp [handleOutcome, hro], by simp [handleOutcome, hro]⟩
      | true =>
          exact Or.inr ⟨resp, by simp [handleOutcome, hro], hro,
            by simp [handleOutcome, hro]⟩

/-- C2: for every transport-delivered response (the transport only ever
returns responses with `ok` true) whose nonempty body decodes to a JSON
object carrying status "success" and a result key, parse_api_response
returns exactly the value of the result key, of any JSON type, with no
transformation. -/
theorem C2_success_returns_result (resp : Response) (entries : List (String × Json))
    (v : Json) (hok : resp.ok = true) (hc : resp.content ≠ "")
    (hdec : resp.decoded = some (.obj entries))
    (hs : lookupLast entries "status" = some (.str "success"))
    (hr : lookupLast entries "result" = some v) :
    parse_api_response (some resp) = .ok v := by
  obtain ⟨rok, rerr, rcontent, rdec⟩ := resp
  simp only at hok hc hdec
  subst hok
  subst hdec
  have hks := lookupLast_hasKey entries "status" _ hs
  have hkr := lookupLast_hasKey entries "result" _ hr
  simp [parse_api_response, pyContains, pyIndex, hks, hkr, hs, hr, hc, beqJson]

/-- Witness for C2: the success envelope with result 42 parses to 42. -/
theorem C2_success_returns_result_witness :
    parse_api_response (some successResp) = .ok (.num 42) :=
  C2_success_returns_result successResp
    [("status", .str "success"), ("result", .num 42)] (.num 42)
    rfl (by decide) rfl rfl rfl

/-- C5: for every transport-delivered response whose nonempty body decodes
to a JSON object missing the status key or missing the result key,
parse_api_response returns False and raises nothing, whatever the present
keys hold. -/
theorem C5_missing_keys_returns_false (resp : Response) (entries : List (String × Json))
    (hok : resp.ok = true) (hc : resp.content ≠ "")
    (hdec : resp.decoded = some (.obj entries))
    (h : hasKey entries "status" = false ∨ hasKey entries "result" = false) :
    parse_api_response (some resp) = .ok (.bool false) := by
  obtain ⟨rok, rerr, rcontent, rdec⟩ := resp
  simp only at hok hc hdec
  subst hok
  subst hdec
  rcases h with h | h
  · simp [parse_api_response, pyContains, h, hc]
  · cases hst : hasKey entries "status" with
    | false => simp [parse_api_response, pyContains, hst, hc]
    | true => simp [parse_api_response, pyContains, hst, h, hc]

/-- Witness for C5: a body with status "success" but no result key parses
to False. -/
theorem C5_missing_keys_returns_false_witness :
    parse_api_response (some statusOnlyResp) = .ok (.bool false) :=
  C5_missing_keys_returns_false statusOnlyResp [("status", .str "success")]
    rfl (by decide) rfl (Or.inr rfl)

/-- C7: parse_api_response returns False and raises nothing for an absent
response, for a response with empty body, and for a response whose body is
the JSON object with no keys. -/
theorem C7_silent_false_cases :
    parse_api_response none = .ok (.bool false)
    ∧ (∀ resp : Response, resp.content = "" →
        parse_api_response (some resp) = .ok (.bool false))
    ∧ (∀ resp : Response, resp.content ≠ "" → resp.decoded = some (.obj []) →
        parse_api_response (some resp) = .ok (.bool false)) := by
  refine ⟨rfl, ?_, ?_⟩
  · intro resp hc
    obtain ⟨rok, rerr, rcontent, rdec⟩ := resp
    simp only at hc
    subst hc
    cases rok <;> simp [parse_api_response]
  · intro resp hc hdec
    obtain ⟨rok, rerr, rcontent, rdec⟩ := resp
    simp only at hc hdec
    subst hdec
    cases rok <;> simp [parse_api_response, pyContains, hasKey, hc]

/-- Witness for C7: the empty-body response and the empty-object response
both parse to False. -/
theorem C7_silent_false_cases_witness :
    parse_api_response (some emptyBodyResp) = .ok (.bool false)
    ∧ parse_api_response (some emptyObjResp) = .ok (.bool false) :=
  ⟨C7_silent_false_cases.2.1 emptyBodyResp rfl,
   C7_silent_false_cases.2.2 emptyObjResp (by decide) rfl⟩

/-- C8: for every transport-delivered, nonempty response whose body is not
valid JSON, parse_api_response raises a RuntimeError whose message carries
the body truncated to 50 characters; it does not return a silent False. -/
theorem C8_invalid_json_raises_decode_error (resp : Response)
    (hok : resp.ok = true) (hc : resp.content ≠ "") (hdec : resp.decoded = none) :
    parse_api_response (some resp) =
      .error (.runtimeError
        ("Failed to decode JSON. Response: " ++ resp.content.take 50 ++ "...")) := by
  obtain ⟨rok, rerr, rcontent, rdec⟩ := resp
  simp only at hok hc hdec
  subst hok
  subst hdec
  simp [parse_api_response, hc]

set_option maxRecDepth 8192 in
/-- Witness for C8: an HTML error page raises the decode RuntimeError with
the body snippet. -/
theorem C8_invalid_json_raises_decode_error_witness :
    parse_api_response (some htmlResp) =
      .error (.runtimeError "Failed to decode JSON. Response: <html>not json</html>...") := by
  have h := C8_invalid_json_raises_decode_error htmlResp rfl (by decide) rfl
  exact h.trans (by rfl)

/-- C1 counterexample: the scenario body, status "error" with message
"wall ahead" and no result key, makes the parse performed by Hero.move
return False; it does not raise, because the parser demands both the status
key and the result key before it inspects the status value. -/
theorem C1_counterexample :
    Hero.move { BASE_URL := "http://localhost:3000" } (netConst heroMoveWallAheadResp) =
        .ok (.bool false)
    ∧ Hero.move { BASE_URL := "http://localhost:3000" } (netConst heroMoveWallAheadResp) ≠
        .error (.runtimeError "API operation failed: wall ahead") := by
  have h1 : Hero.move { BASE_URL := "http://localhost:3000" }
      (netConst heroMoveWallAheadResp) = .ok (.bool false) := rfl
  refine ⟨h1, ?_⟩
  rw [h1]
  simp

/-- C1 (amended): for every transport-delivered response whose nonempty body
decodes to a JSON object containing both a status key and a result key, with
a status value other than the string "success", parse_api_response raises a
RuntimeError whose message is "API operation failed: " followed by the
message value when the message key holds a string, else followed by the
fallback "API response payload indicated failure."; the scenario body,
which lacks a result key, instead parses to False. -/
theorem C1_amended_error_status_raises (resp : Response) (entries : List (String × Json))
    (sv : Json) (hok : resp.ok = true) (hc : resp.content ≠ "")
    (hdec : resp.decoded = some (.obj entries))
    (hs : lookupLast entries "status" = some sv)
    (hsv : beqJson sv (.str "success") = false)
    (hkr : hasKey entries "result" = true) :
    (∀ m, lookupLast entries "message" = some (.str m) →
        parse_api_response (some resp) =
          .error (.runtimeError ("API operation failed: " ++ m)))
    ∧ (lookupLast entries "message" = none →
        parse_api_response (some resp) =
          .error (.runtimeError
            ("API operation failed: " ++ "API response payload indicated failure."))) := by
  obtain ⟨rok, rerr, rcontent, rdec⟩ := resp
  simp only at hok hc hdec
  subst hok
  subst hdec
  have hks := lookupLast_hasKey entries "status" _ hs
  constructor
  · intro m hm
    simp [parse_api_response, pyContains, pyIndex, pyGet, pyStr, hks, hkr, hs, hsv, hm, hc]
  · intro hm
    simp [parse_api_response, pyContains, pyIndex, pyGet, pyStr, hks, hkr, hs, hsv, hm, hc]

/-- Witness for the amended C1: the scenario body extended with a result
key raises with message "API operation failed: wall ahead". -/
theorem C1_amended_error_status_raises_witness :
    parse_api_response (some wallAheadWithResultResp) =
      .error (.runtimeError ("API operation failed: " ++ "wall ahead")) :=
  (C1_amended_error_status_raises wallAheadWithResultResp
      [("status", .str "error"), ("message", .str "wall ahead"), ("result", .null)]
      (.str "error") rfl (by decide) rfl rfl rfl rfl).1 "wall ahead" rfl

/-- C6: send_request never raises past its boundary: its embedding is a
total function into SendResult (every branch of the try block is matched by
a handler), and for every url, method, body, headers, timeout and network
behaviour it either hands back the successful response of the network, or
converts the failure to the absent response None after printing a
diagnostic. -/
theorem C6_send_request_never_raises (url method : String) (data : Option Json)
    (headers : Option (List (String × String))) (timeout : Nat) (net : Network) :
    ((send_request url method data headers timeout net).response = none
      ∧ (send_request url method data headers timeout net).printed ≠ [])
    ∨ (∃ resp, (send_request url method data headers timeout net).response = some resp
        ∧ resp.ok = true
        ∧ (send_request url method data headers timeout net).printed = []) := by
  by_cases hg : method = "GET"
  · subst hg
    exact handleOutcome_spec url (net url "GET" data headers timeout)
  · by_cases hp : method = "POST"
    · subst hp
      exact handleOutcome_spec url (net url "POST" data headers timeout)
    · refine Or.inl ⟨?_, ?_⟩ <;> simp [send_request, hg, hp]

/-- Witness for C6 at a concrete refused connection: the result is the
absent response with one diagnostic. -/
theorem C6_send_request_never_raises_witness :
    ((send_request "http://localhost:3000/hero/move" "POST" none none 1 netRefused).response
        = none
      ∧ (send_request "http://localhost:3000/hero/move" "POST" none none 1
          netRefused).printed ≠ [])
    ∨ (∃ resp, (send_request "http://localhost:3000/hero/move" "POST" none none 1
          netRefused).response = some resp
        ∧ resp.ok = true
        ∧ (send_request "http://localhost:3000/hero/move" "POST" none none 1
            netRefused).printed = []) :=
  C6_send_request_never_raises "http://localhost:3000/hero/move" "POST" none none 1 netRefused

/-- C10: for every method other than GET and POST, send_request prints the
not-implemented diagnostic and returns None without issuing a network
call. -/
theorem C10_unsupported_method_local_failure (url : String) (data : Option Json)
    (headers : Option (List (String × String))) (timeout : Nat) (net : Network)
    (method : String) (hg : method ≠ "GET") (hp : method ≠ "POST") :
    send_request url method data headers timeout net =
      { response := none,
        printed := ["Error: Method " ++ method ++ " not implemented!"],
        networkCalled := false } := by
  simp [send_request, hg, hp]

/-- Witness for C10: a PATCH request fails locally with the diagnostic and
no network call. -/
theorem C10_unsupported_method_local_failure_witness :
    send_request "http://localhost:3000/hero/move" "PATCH" none none 1 netRefused =
      { response := none,
        printed := ["Error: Method " ++ "PATCH" ++ " not implemented!"],
        networkCalled := false } :=
  C10_unsupported_method_local_failure "http://localhost:3000/hero/move" none none 1
    netRefused "PATCH" (by decide) (by decide)

/-- C9: for every file name the file system reports missing, Level.load
returns the local error dict naming the file and issues no HTTP request. -/
theorem C9_missing_file_local_error (lvl : Level) (filename : String) (fs : FileSystem)
    (net : Network) (h : fs filename = .missing) :
    lvl.load filename fs net =
      { result := .ok (.obj [("status", .str "error"),
                             ("message", .str ("File not found: " ++ filename))]),
        printed := [], httpCalled := false } := by
  simp [Level.load, h]

/-- Witness for C9 at the file name of the scenario. -/
theorem C9_missing_file_local_error_witness :
    Level.load { BASE_URL := Game.BASE_URL } "missing.json" fsMissing netRefused =
      { result := .ok (.obj [("status", .str "error"),
                             ("message", .str ("File not found: " ++ "missing.json"))]),
        printed := [], httpCalled := false } :=
  C9_missing_file_local_error { BASE_URL := Game.BASE_URL } "missing.json" fsMissing
    netRefused rfl

/-- C3 counterexample: a level file that exists but holds invalid JSON does
NOT crash the script through the Game facade — the bare except of the
constructor catches the decode failure, prints one diagnostic, and
construction completes; and a missing level file prints nothing at all (the
load returns an error value that the constructor discards), contradicting
the claimed asymmetry. -/
theorem C3_counterexample :
    Game.init "level1.json" fsInvalidJson netRefused =
      .ok { game := { level := { BASE_URL := "http://localhost:3000" },
                      hero := { BASE_URL := "http://localhost:3000" } },
            printed := ["Error: Level level1.json could not be loaded. Please make sure the file exists and is valid."] }
    ∧ Game.init "missing.json" fsMissing netRefused =
        .ok { game := { level := { BASE_URL := "http://localhost:3000" },
                        hero := { BASE_URL := "http://localhost:3000" } },
              printed := [] } :=
  ⟨rfl, rfl⟩

/-- C3 (amended): a decode failure on an existing level file is not caught
inside Level.load and propagates to the caller of Level.load; when the Game
facade is used, that caller is the constructor, whose bare except catches
it, prints one diagnostic, and completes construction — the script does not
crash — while a missing level file completes construction with no output at
all. -/
theorem C3_amended_decode_error_handling (lvl : Level) (filename : String)
    (fs : FileSystem) (net : Network) (m : String) :
    (fs filename = .invalidJson m →
        (lvl.load filename fs net).result = .error (.jsonDecodeError m)
        ∧ Game.init filename fs net =
            .ok { game := { level := { BASE_URL := Game.BASE_URL },
                            hero := { BASE_URL := Game.BASE_URL } },
                  printed := ["Error: Level " ++ filename
                    ++ " could not be loaded. Please make sure the file exists and is valid."] })
    ∧ (fs filename = .missing →
        Game.init filename fs net =
          .ok { game := { level := { BASE_URL := Game.BASE_URL },
                          hero := { BASE_URL := Game.BASE_URL } },
                printed := [] }) := by
  constructor
  · intro h
    constructor
    · simp [Level.load, h]
    · simp [Game.init, Level.load, h]
  · intro h
    simp [Game.init, Level.load, h]

/-- Witness for the amended C3 at concrete file systems. -/
theorem C3_amended_decode_error_handling_witness :
    (Level.load { BASE_URL := Game.BASE_URL } "level1.json" fsInvalidJson netRefused).result
        = .error (.jsonDecodeError "Expecting value: line 1 column 1 (char 0)")
    ∧ Game.init "missing.json" fsMissing netRefused =
        .ok { game := { level := { BASE_URL := Game.BASE_URL },
                        hero := { BASE_URL := Game.BASE_URL } },
              printed := [] } :=
  ⟨((C3_amended_decode_error_handling { BASE_URL := Game.BASE_URL } "level1.json"
      fsInvalidJson netRefused "Expecting value: line 1 column 1 (char 0)").1 rfl).1,
   (C3_amended_decode_error_handling { BASE_URL := Game.BASE_URL } "missing.json"
      fsMissing netRefused "unused").2 rfl⟩

/-- C4 counterexample: on a missing level file — one of the load failures
the claim enumerates — the constructor prints no diagnostic at all: the
load returns an error value rather than raising, the constructor discards
it, and the printed output of construction is empty. -/
theorem C4_counterexample :
    fsMissing "missing.json" = .missing
    ∧ Game.init "missing.json" fsMissing netRefused =
        .ok { game := { level := { BASE_URL := "http://localhost:3000" },
                        hero := { BASE_URL := "http://localhost:3000" } },
              printed := [] } :=
  ⟨rfl, rfl⟩

/-- C4 (amended): the Game constructor never fails to construct: for every
level file path, file system and network behaviour it returns normally and
unconditionally builds the Hero client, so get_hero yields a Hero handle
bound to the base URL regardless of the load outcome; it prints a
diagnostic exactly when the level load raised, so a missing level file
(whose load returns an error value) produces no diagnostic. -/
theorem C4_amended_constructor_never_fails (level_file : String) (fs : FileSystem)
    (net : Network) :
    ∃ r : InitResult,
      Game.init level_file fs net = .ok r
      ∧ r.game.get_hero = { BASE_URL := Game.BASE_URL }
      ∧ ((Level.load { BASE_URL := Game.BASE_URL } level_file fs net).result.isOk = false →
          r.printed ≠ []) := by
  refine ⟨_, rfl, rfl, ?_⟩
  intro hfail
  cases hres : (Level.load { BASE_URL := Game.BASE_URL } level_file fs net).result with
  | ok v =>
      rw [hres] at hfail
      simp [Except.isOk, Except.toBool] at hfail
  | error e =>
      simp only [hres]
      simp

/-- Witness for the amended C4 at a concrete input. -/
theorem C4_amended_constructor_never_fails_witness :
    ∃ r : InitResult,
      Game.init "level1.json" fsInvalidJson netRefused = .ok r
      ∧ r.game.get_hero = { BASE_URL := Game.BASE_URL }
      ∧ ((Level.load { BASE_URL := Game.BASE_URL } "level1.json" fsInvalidJson
            netRefused).result.isOk = false →
          r.printed ≠ []) :=
  C4_amended_constructor_never_fails "level1.json" fsInvalidJson netRefused

end DungeonCoder
